import Mathlib

/-!
# SwarmGrid Edge Agent — verification of the orchestration and reliability layer

Shallow embedding of the edge agent's control-plane code
(`src/edge-agent/src/…`) and proofs of the specification's claims about it.

Each Python routine the claims touch is translated into an executable Lean
definition: stateful code becomes explicit state passing, network I/O becomes
an oracle of per-attempt results supplied as an argument, and the observable
side effects (POSTs issued, seconds slept, store writes, reports sent) are
returned as data so the theorems can speak about them.
-/

namespace Transport

/-!
## Telemetry Transport (`transport/backend_client.py`)

`BackendClient._flush_buffer` copies and clears the buffer, then runs
`for attempt in range(retry_attempts)`: each iteration POSTs the batch;
status 200 returns `True`; status ≥ 500 sleeps `2 ** attempt` seconds and
retries; any other status returns `False` immediately; `httpx.TimeoutException`
and `httpx.ConnectError` sleep `2 ** attempt` seconds and retry.  Falling out
of the loop returns `False`.  The buffer is never refilled on any path.
-/

/-- Outcome of one ingest POST, as distinguished by `_flush_buffer`'s
`try/except`: an HTTP response with a status code, a timeout, or a
connection error. -/
inductive AttemptResult where
  | status (code : Nat)
  | timeout
  | connectError
deriving DecidableEq, Repr

/-- Result of a flush: the returned boolean, the number of POSTs issued, the
seconds slept between attempts (in order), and the buffer left behind. -/
structure FlushOutcome where
  success : Bool
  posts : Nat
  sleeps : List Nat
  buffer : List Nat
deriving DecidableEq, Repr

/-- The retry loop of `_flush_buffer`, lines 87–111: `attempt` is the current
loop index, `fuel` the remaining iterations of `range(retry_attempts)`.
Returns (returned boolean, POSTs issued, sleeps performed). -/
def retryLoop (results : Nat → AttemptResult) : Nat → Nat → Bool × Nat × List Nat
  | _, 0 => (false, 0, [])
  | attempt, fuel + 1 =>
    match results attempt with
    | .status code =>
      if code = 200 then (true, 1, [])
      else if 500 ≤ code then
        let r := retryLoop results (attempt + 1) fuel
        (r.1, r.2.1 + 1, 2 ^ attempt :: r.2.2)
      else (false, 1, [])
    | .timeout =>
      let r := retryLoop results (attempt + 1) fuel
      (r.1, r.2.1 + 1, 2 ^ attempt :: r.2.2)
    | .connectError =>
      let r := retryLoop results (attempt + 1) fuel
      (r.1, r.2.1 + 1, 2 ^ attempt :: r.2.2)

/-- `BackendClient._flush_buffer`.  Payloads are identified by `Nat` ids; the
network is the oracle `results`, giving the outcome of the `attempt`-th POST. -/
def flushBuffer (buffer : List Nat) (retryAttempts : Nat)
    (results : Nat → AttemptResult) : FlushOutcome :=
  if buffer.isEmpty then
    { success := true, posts := 0, sleeps := [], buffer := buffer }
  else
    let r := retryLoop results 0 retryAttempts
    { success := r.1, posts := r.2.1, sleeps := r.2.2, buffer := [] }

/-- An attempt outcome the code treats as transient: a 5xx response, a
timeout, or a connection error. -/
def transient : AttemptResult → Prop
  | .status code => 500 ≤ code
  | .timeout => True
  | .connectError => True

instance : DecidablePred transient := fun r => by
  cases r <;> simp [transient] <;> infer_instance

/-- If every attempt in the window is transient, the retry loop runs to
exhaustion: returns `false`, issues one POST per iteration, and sleeps
`2^attempt` after each one. -/
theorem retryLoop_all_transient (results : Nat → AttemptResult)
    (attempt fuel : Nat)
    (h : ∀ i, attempt ≤ i → i < attempt + fuel → transient (results i)) :
    retryLoop results attempt fuel =
      (false, fuel, (List.range' attempt fuel).map (2 ^ ·)) := by
  induction fuel generalizing attempt with
  | zero => simp [retryLoop]
  | succ n ih =>
    have hcur : transient (results attempt) := h attempt le_rfl (by omega)
    have hrec := ih (attempt + 1) (fun i h1 h2 => h i (by omega) (by omega))
    cases hr : results attempt with
    | status code =>
      have h500 : 500 ≤ code := by rw [hr] at hcur; exact hcur
      have hne : ¬ code = 200 := by omega
      simp [retryLoop, hr, hne, h500, hrec, List.range'_succ]
    | timeout => simp [retryLoop, hr, hrec, List.range'_succ]
    | connectError => simp [retryLoop, hr, hrec, List.range'_succ]

/-- The retry loop never issues more POSTs than it has iterations. -/
theorem retryLoop_posts_le (results : Nat → AttemptResult)
    (attempt fuel : Nat) :
    (retryLoop results attempt fuel).2.1 ≤ fuel := by
  induction fuel generalizing attempt with
  | zero => simp [retryLoop]
  | succ n ih =>
    have h1 := ih (attempt + 1)
    cases hr : results attempt with
    | status code =>
      by_cases h200 : code = 200
      · simp [retryLoop, hr, h200]
      · by_cases h500 : 500 ≤ code
        · simp [retryLoop, hr, h200, h500]
          omega
        · simp [retryLoop, hr, h200, h500]
    | timeout =>
      simp [retryLoop, hr]
      omega
    | connectError =>
      simp [retryLoop, hr]
      omega

/-- The powers of two slept between successive attempts form a strictly
increasing sequence. -/
theorem chain_pow_range (n : Nat) :
    List.Chain' (· < ·) ((List.range n).map (2 ^ ·)) := by
  rw [List.chain'_map]
  cases n with
  | zero => simp
  | succ m =>
    rw [List.chain'_range_succ]
    intro i _
    exact Nat.pow_lt_pow_succ (by norm_num)

/-- C1: if every attempt's outcome is a 5xx response or a timeout/connection
error, `_flush_buffer` issues at most `retry_attempts` POSTs, the sleeps are
`2^0, 2^1, …` seconds (strictly increasing), the call returns `False` rather
than raising, and the buffer stays empty — the batch is never requeued. -/
theorem flush_all_transient_drops_batch (buffer : List Nat)
    (retryAttempts : Nat) (results : Nat → Transport.AttemptResult)
    (hb : buffer ≠ [])
    (ht : ∀ i, i < retryAttempts → Transport.transient (results i)) :
    (Transport.flushBuffer buffer retryAttempts results).success = false ∧
    (Transport.flushBuffer buffer retryAttempts results).posts ≤ retryAttempts ∧
    (Transport.flushBuffer buffer retryAttempts results).sleeps
      = (List.range retryAttempts).map (2 ^ ·) ∧
    List.Chain' (· < ·)
      (Transport.flushBuffer buffer retryAttempts results).sleeps ∧
    (Transport.flushBuffer buffer retryAttempts results).buffer = [] := by
  have hloop := Transport.retryLoop_all_transient results 0 retryAttempts
    (fun i h0 h1 => ht i (by omega))
  have hbuf : buffer.isEmpty = false := by
    cases buffer with
    | nil => exact absurd rfl hb
    | cons a t => rfl
  have hflush : Transport.flushBuffer buffer retryAttempts results =
      { success := false, posts := retryAttempts,
        sleeps := (List.range' 0 retryAttempts).map (2 ^ ·), buffer := [] } := by
    simp [Transport.flushBuffer, hbuf, hloop]
  rw [hflush]
  refine ⟨rfl, le_rfl, ?_, ?_, rfl⟩
  · rw [List.range_eq_range']
  · have hc := chain_pow_range retryAttempts
    rw [List.range_eq_range'] at hc
    exact hc

/-- Witness for C1 at a concrete run: one buffered batch, three attempts, all
timeouts. -/
theorem flush_all_transient_drops_batch_witness :
    (Transport.flushBuffer [7] 3 (fun _ => Transport.AttemptResult.timeout)).success
      = false ∧
    (Transport.flushBuffer [7] 3 (fun _ => Transport.AttemptResult.timeout)).posts
      ≤ 3 ∧
    (Transport.flushBuffer [7] 3 (fun _ => Transport.AttemptResult.timeout)).sleeps
      = (List.range 3).map (2 ^ ·) ∧
    List.Chain' (· < ·)
      (Transport.flushBuffer [7] 3 (fun _ => Transport.AttemptResult.timeout)).sleeps ∧
    (Transport.flushBuffer [7] 3 (fun _ => Transport.AttemptResult.timeout)).buffer
      = [] :=
  flush_all_transient_drops_batch [7] 3 _ (by decide) (fun i _ => trivial)

/-- C5 counterexample: the claim says any 2xx response yields success, but on
a 201 response (a 2xx status) the code's `status_code == 200` test fails, the
`< 500` branch abandons the batch, and flush returns `False`. -/
theorem flush_201_refutes_2xx_success :
    (200 ≤ 201 ∧ 201 < 300) ∧
    ¬ ((Transport.flushBuffer [7] 3
        (fun _ => Transport.AttemptResult.status 201)).success = true) := by
  decide

/-- C5 amended: a 200 response yields success with the buffer cleared after a
single POST; any non-200 response below 500 (other 2xx, 3xx, 4xx) abandons the
batch immediately — one POST, no sleeps, failure returned, buffer cleared. -/
theorem flush_200_success_other_non5xx_abandons (buffer : List Nat)
    (retryAttempts : Nat) (results : Nat → Transport.AttemptResult)
    (hb : buffer ≠ []) (hr : 1 ≤ retryAttempts) :
    ((results 0 = .status 200) →
      (Transport.flushBuffer buffer retryAttempts results).success = true ∧
      (Transport.flushBuffer buffer retryAttempts results).posts = 1 ∧
      (Transport.flushBuffer buffer retryAttempts results).buffer = []) ∧
    (∀ code, results 0 = .status code → code ≠ 200 → code < 500 →
      (Transport.flushBuffer buffer retryAttempts results).success = false ∧
      (Transport.flushBuffer buffer retryAttempts results).posts = 1 ∧
      (Transport.flushBuffer buffer retryAttempts results).sleeps = [] ∧
      (Transport.flushBuffer buffer retryAttempts results).buffer = []) := by
  have hbuf : buffer.isEmpty = false := by
    cases buffer with
    | nil => exact absurd rfl hb
    | cons a t => rfl
  obtain ⟨k, rfl⟩ : ∃ k, retryAttempts = k + 1 := ⟨retryAttempts - 1, by omega⟩
  constructor
  · intro h200
    simp [Transport.flushBuffer, hbuf, Transport.retryLoop, h200]
  · intro code hc hne h500
    have h500' : ¬ 500 ≤ code := by omega
    simp [Transport.flushBuffer, hbuf, Transport.retryLoop, hc, hne, h500']

/-- Witness for the amended C5 at a concrete run: a 200 response on the first
attempt. -/
theorem flush_200_success_other_non5xx_abandons_witness :
    (((fun _ => Transport.AttemptResult.status 200) 0
        = Transport.AttemptResult.status 200) →
      (Transport.flushBuffer [7] 3
        (fun _ => Transport.AttemptResult.status 200)).success = true ∧
      (Transport.flushBuffer [7] 3
        (fun _ => Transport.AttemptResult.status 200)).posts = 1 ∧
      (Transport.flushBuffer [7] 3
        (fun _ => Transport.AttemptResult.status 200)).buffer = []) ∧
    (∀ code, (fun _ => Transport.AttemptResult.status 200) 0
        = Transport.AttemptResult.status code → code ≠ 200 → code < 500 →
      (Transport.flushBuffer [7] 3
        (fun _ => Transport.AttemptResult.status 200)).success = false ∧
      (Transport.flushBuffer [7] 3
        (fun _ => Transport.AttemptResult.status 200)).posts = 1 ∧
      (Transport.flushBuffer [7] 3
        (fun _ => Transport.AttemptResult.status 200)).sleeps = [] ∧
      (Transport.flushBuffer [7] 3
        (fun _ => Transport.AttemptResult.status 200)).buffer = []) :=
  flush_200_success_other_non5xx_abandons [7] 3
    (fun _ => Transport.AttemptResult.status 200) (by decide) (by decide)

end Transport

namespace Update

/-!
## Update Coordinator (`update/update_manager.py`)

`UpdateManager._deep_merge(base, patch)` copies `base`, then for each
`(key, value)` of `patch`: if the key is present in the result and both the
present value and `value` are dicts, it stores the recursive merge; otherwise
it stores `value` itself.  Python dicts are ordered key/value maps, embedded
here as association lists; assignment replaces an existing binding in place
and appends a fresh one.
-/

/-- A configuration value: a scalar (number or string) or a nested mapping,
as produced by `json.loads` / `yaml.safe_load`. -/
inductive JVal where
  | num : Int → JVal
  | str : String → JVal
  | obj : List (String × JVal) → JVal

/-- Python `key in d` / `d[key]` read: the first binding of `k`. -/
def lookup (k : String) : List (String × JVal) → Option JVal
  | [] => none
  | (k', v) :: rest => if k' = k then some v else lookup k rest

/-- Python `d[key] = v` write: replace an existing binding in place,
otherwise append. -/
def setKey (k : String) (v : JVal) :
    List (String × JVal) → List (String × JVal)
  | [] => [(k, v)]
  | (k', v') :: rest =>
    if k' = k then (k', v) :: rest else (k', v') :: setKey k v rest

mutual

/-- `UpdateManager._deep_merge`: fold the patch entries into a copy of the
base; `mergedVal` decides per entry between recursive merge and wholesale
replacement. -/
def deepMerge (base : List (String × JVal)) :
    List (String × JVal) → List (String × JVal)
  | [] => base
  | (k, v) :: rest => deepMerge (setKey k (mergedVal (lookup k base) v) base) rest
  termination_by patch => sizeOf patch

/-- The value `_deep_merge` stores for one patch entry: the recursive merge
when both the value the result currently holds and the patch value are dicts,
the patch value wholesale otherwise. -/
def mergedVal : Option JVal → JVal → JVal
  | some (JVal.obj bsub), JVal.obj psub => JVal.obj (deepMerge bsub psub)
  | _, v => v
  termination_by _ v => sizeOf v

end

theorem deepMerge_nil (base : List (String × JVal)) :
    deepMerge base [] = base := by
  rw [deepMerge]

theorem deepMerge_cons (base : List (String × JVal)) (k : String) (v : JVal)
    (rest : List (String × JVal)) :
    deepMerge base ((k, v) :: rest)
      = deepMerge (setKey k (mergedVal (lookup k base) v) base) rest := by
  rw [deepMerge]

theorem lookup_setKey_self (k : String) (w : JVal)
    (l : List (String × JVal)) : lookup k (setKey k w l) = some w := by
  induction l with
  | nil => simp [setKey, lookup]
  | cons p rest ih =>
    obtain ⟨k', v'⟩ := p
    by_cases h : k' = k
    · simp [setKey, lookup, h]
    · simp [setKey, lookup, h, ih]

theorem lookup_setKey_ne (k k' : String) (w : JVal)
    (l : List (String × JVal)) (h : k' ≠ k) :
    lookup k (setKey k' w l) = lookup k l := by
  induction l with
  | nil => simp [setKey, lookup, h]
  | cons p rest ih =>
    obtain ⟨k'', v''⟩ := p
    by_cases h2 : k'' = k'
    · subst h2
      simp [setKey, lookup, h]
    · simp [setKey, lookup, h2, ih]

theorem lookup_eq_none_of_not_mem_keys (k : String)
    (l : List (String × JVal)) (h : k ∉ l.map Prod.fst) :
    lookup k l = none := by
  induction l with
  | nil => simp [lookup]
  | cons p rest ih =>
    obtain ⟨k', v'⟩ := p
    simp only [List.map_cons, List.mem_cons] at h
    push_neg at h
    have : k' ≠ k := fun hk => h.1 hk.symm
    simp [lookup, this, ih h.2]

/-- Keys absent from the patch keep the value the base held. -/
theorem lookup_deepMerge_of_not_in_patch (base patch : List (String × JVal))
    (k : String) (h : lookup k patch = none) :
    lookup k (deepMerge base patch) = lookup k base := by
  induction patch generalizing base with
  | nil => simp [deepMerge_nil]
  | cons p rest ih =>
    obtain ⟨k', v'⟩ := p
    have hk : k' ≠ k := by
      intro he
      simp [lookup, he] at h
    have hrest : lookup k rest = none := by
      simpa [lookup, hk] using h
    rw [deepMerge_cons, ih _ hrest, lookup_setKey_ne _ _ _ _ hk]

/-- Each patch key ends at `mergedVal` of what the base held and the patch
value, provided the patch binds each key once (as a Python dict does). -/
theorem lookup_deepMerge_of_in_patch (base patch : List (String × JVal))
    (k : String) (v : JVal) (hnd : (patch.map Prod.fst).Nodup)
    (h : lookup k patch = some v) :
    lookup k (deepMerge base patch) = some (mergedVal (lookup k base) v) := by
  induction patch generalizing base with
  | nil => simp [lookup] at h
  | cons p rest ih =>
    obtain ⟨k', v'⟩ := p
    simp only [List.map_cons, List.nodup_cons] at hnd
    by_cases hk : k' = k
    · subst hk
      have hv : v' = v := by simpa [lookup] using h
      subst hv
      have hnone : lookup k' rest = none :=
        lookup_eq_none_of_not_mem_keys _ _ hnd.1
      rw [deepMerge_cons, lookup_deepMerge_of_not_in_patch _ _ _ hnone,
        lookup_setKey_self]
    · have hrest : lookup k rest = some v := by
        simpa [lookup, hk] using h
      rw [deepMerge_cons, ih _ hnd.2 hrest, lookup_setKey_ne _ _ _ _ hk]

/-- C2: the deep merge recurses exactly when both sides hold a nested
mapping and otherwise replaces wholesale: merging `{"a":{"b":1,"c":2}}` with
patch `{"a":{"b":5}}` gives `{"a":{"b":5,"c":2}}`; merging patch `{"a":5}`
onto `{"a":{"b":1}}` gives `{"a":5}`; keys absent from the patch keep their
base value; and every patch key ends at the recursive merge when both values
are mappings, else at the patch value. -/
theorem deepMerge_patch_semantics :
    (deepMerge [("a", JVal.obj [("b", JVal.num 1), ("c", JVal.num 2)])]
        [("a", JVal.obj [("b", JVal.num 5)])]
      = [("a", JVal.obj [("b", JVal.num 5), ("c", JVal.num 2)])]) ∧
    (deepMerge [("a", JVal.obj [("b", JVal.num 1)])] [("a", JVal.num 5)]
      = [("a", JVal.num 5)]) ∧
    (∀ base patch k, lookup k patch = none →
      lookup k (deepMerge base patch) = lookup k base) ∧
    (∀ base patch k v, (patch.map Prod.fst).Nodup → lookup k patch = some v →
      lookup k (deepMerge base patch) = some (mergedVal (lookup k base) v)) := by
  refine ⟨?_, ?_, lookup_deepMerge_of_not_in_patch, fun base patch k v h1 h2 =>
    lookup_deepMerge_of_in_patch base patch k v h1 h2⟩
  · simp [deepMerge_cons, deepMerge_nil, mergedVal, lookup, setKey]
  · simp [deepMerge_cons, deepMerge_nil, mergedVal, lookup, setKey]

/-- Witness for C2's quantified conjuncts at concrete dictionaries. -/
theorem deepMerge_patch_semantics_witness :
    (lookup "z" (deepMerge [("z", JVal.num 9)] [("a", JVal.num 5)])
      = lookup "z" [("z", JVal.num 9)]) ∧
    (lookup "a" (deepMerge [("a", JVal.num 1)] [("a", JVal.num 5)])
      = some (mergedVal (lookup "a" [("a", JVal.num 1)]) (JVal.num 5))) :=
  ⟨deepMerge_patch_semantics.2.2.1 [("z", JVal.num 9)] [("a", JVal.num 5)] "z"
      (by simp [lookup]),
   deepMerge_patch_semantics.2.2.2 [("a", JVal.num 1)] [("a", JVal.num 5)] "a"
      (JVal.num 5) (by simp) (by simp [lookup])⟩

/-!
`UpdateManager.apply_pending_update` (lines 218–247): with no pending update
it returns `False`; otherwise `success` starts `False` and is set to the
result of `apply_config_update` only when the pending update's `config_patch`
is truthy (a non-`None`, non-empty dict); the outcome is reported via
`_report_update` (which sends nothing when `device_id` is unset); the pending
update is cleared only when `success` is true; `success` is returned.
-/

/-- `UpdateInfo` as parsed from the backend (config patch already decoded). -/
structure UpdateInfo where
  version : String
  downloadUrl : Option String
  configPatch : Option (List (String × JVal))
  checksum : Option String
  isRequired : Bool
  releaseNotes : Option String

/-- The body `_report_update` POSTs to `/api/update/report`. -/
structure UpdateReport where
  deviceId : String
  fromVersion : String
  toVersion : String
  success : Bool

/-- `UpdateManager.CURRENT_VERSION`. -/
def CURRENT_VERSION : String := "1.0.0"

/-- Python truthiness of `update.config_patch`: `None` and `{}` are falsy. -/
def patchTruthy : Option (List (String × JVal)) → Bool
  | none => false
  | some l => !l.isEmpty

/-- `UpdateManager.apply_pending_update`.  `applyResult` is the outcome
`apply_config_update` would return on the patch (file I/O, supplied as an
oracle).  Returns (returned boolean, pending update afterwards, reports
POSTed). -/
def applyPendingUpdate (pending : Option UpdateInfo) (deviceId : Option String)
    (applyResult : Bool) : Bool × Option UpdateInfo × List UpdateReport :=
  match pending with
  | none => (false, none, [])
  | some u =>
    let success := if patchTruthy u.configPatch then applyResult else false
    let reports :=
      match deviceId with
      | none => []
      | some d => [{ deviceId := d, fromVersion := CURRENT_VERSION,
                     toVersion := u.version, success := success : UpdateReport }]
    (success, if success then none else some u, reports)

/-- C10: a pending update whose `config_patch` is absent or empty is reported
to the backend with `success=False`, `apply_pending_update` returns `False`,
and the update stays pending — it is never cleared. -/
theorem applyPendingUpdate_no_patch_fails (u : UpdateInfo) (d : String)
    (applyResult : Bool) (hp : patchTruthy u.configPatch = false) :
    (applyPendingUpdate (some u) (some d) applyResult).1 = false ∧
    (applyPendingUpdate (some u) (some d) applyResult).2.1 = some u ∧
    (applyPendingUpdate (some u) (some d) applyResult).2.2
      = [{ deviceId := d, fromVersion := CURRENT_VERSION,
           toVersion := u.version, success := false }] := by
  simp [applyPendingUpdate, hp]

/-- Witness for C10: a pending update carrying an empty config patch. -/
theorem applyPendingUpdate_no_patch_fails_witness :
    (applyPendingUpdate
      (some ⟨"2.0.0", none, some [], none, false, none⟩) (some "dev-1") true).1
      = false ∧
    (applyPendingUpdate
      (some ⟨"2.0.0", none, some [], none, false, none⟩) (some "dev-1") true).2.1
      = some ⟨"2.0.0", none, some [], none, false, none⟩ ∧
    (applyPendingUpdate
      (some ⟨"2.0.0", none, some [], none, false, none⟩) (some "dev-1") true).2.2
      = [{ deviceId := "dev-1", fromVersion := CURRENT_VERSION,
           toVersion := "2.0.0", success := false }] :=
  applyPendingUpdate_no_patch_fails ⟨"2.0.0", none, some [], none, false, none⟩
    "dev-1" true rfl

end Update

namespace Provisioning

/-!
## Device Identity Manager (`provisioning/device_provisioning.py`,
`provisioning/device_store.py`)

`DeviceStore.load` returns the in-memory cache when set, otherwise reads the
store file (caching the result); `DeviceStore.save` writes the file and the
cache.  `DeviceProvisioning.ensure_registered` loads the stored credentials;
if present and marked registered it validates them remotely and on success
returns the existing device id; otherwise it generates fresh credentials only
when none were loaded, and calls `_register_device`, which persists the
credentials (with `registered=True` and a timestamp) only on a 200/201
response and otherwise returns a failure result without saving anything.
-/

/-- The persisted credential record (`DeviceCredentials` dataclass). -/
structure DeviceCredentials where
  deviceId : String
  deviceSecret : String
  tenantId : String
  siteId : String
  registered : Bool
  registeredAt : Option String
deriving DecidableEq, Repr

/-- `DeviceStore` state: the JSON file's contents and the in-memory cache. -/
structure Store where
  file : Option DeviceCredentials
  cache : Option DeviceCredentials
deriving DecidableEq, Repr

/-- `DeviceStore.load`. -/
def storeLoad (s : Store) : Option DeviceCredentials × Store :=
  match s.cache with
  | some c => (some c, s)
  | none =>
    match s.file with
    | none => (none, s)
    | some c => (some c, { s with cache := some c })

/-- `DeviceStore.save`. -/
def storeSave (c : DeviceCredentials) (_s : Store) : Store :=
  { file := some c, cache := some c }

/-- `ProvisioningResult` (message field omitted; only the success flag and
device id are observable to callers that branch). -/
structure ProvResult where
  success : Bool
  deviceId : Option String
deriving DecidableEq, Repr

/-- `DeviceProvisioning` state: its store and `self._credentials`. -/
structure ProvState where
  store : Store
  credentials : Option DeviceCredentials
deriving DecidableEq, Repr

/-- The remote backend's behaviour during one `ensure_registered` call:
whether `/api/device/validate` returns 200, the `/api/device/register`
response status (`none` models a raised exception), the fresh id and secret
`generate_device_id`/`generate_device_secret` would produce, and the
registration timestamp. -/
structure Env where
  validateOk : Bool
  registerStatus : Option Nat
  freshId : String
  freshSecret : String
  ts : String
deriving DecidableEq, Repr

/-- Observable side effects: how many times a fresh id/secret pair was
generated, and every credential record written to the durable store. -/
structure ProvEvents where
  generated : Nat
  saves : List DeviceCredentials
deriving DecidableEq, Repr

/-- `DeviceProvisioning._register_device`. -/
def registerDevice (st : ProvState) (ev : ProvEvents) (env : Env) :
    ProvResult × ProvState × ProvEvents :=
  match st.credentials with
  | none => ({ success := false, deviceId := none }, st, ev)
  | some c =>
    match env.registerStatus with
    | some s =>
      if s = 200 ∨ s = 201 then
        let c' := { c with registered := true, registeredAt := some env.ts }
        ({ success := true, deviceId := some c'.deviceId },
         { store := storeSave c' st.store, credentials := some c' },
         { ev with saves := ev.saves ++ [c'] })
      else ({ success := false, deviceId := none }, st, ev)
    | none => ({ success := false, deviceId := none }, st, ev)

/-- `DeviceProvisioning.ensure_registered` (provisioning enabled). -/
def ensureRegistered (st : ProvState) (env : Env)
    (tenantId siteId : String) : ProvResult × ProvState × ProvEvents :=
  let l := storeLoad st.store
  let st1 : ProvState := { store := l.2, credentials := l.1 }
  match l.1 with
  | some c =>
    if c.registered && env.validateOk then
      ({ success := true, deviceId := some c.deviceId }, st1,
       { generated := 0, saves := [] })
    else
      registerDevice st1 { generated := 0, saves := [] } env
  | none =>
    let c : DeviceCredentials :=
      { deviceId := env.freshId, deviceSecret := env.freshSecret,
        tenantId := tenantId, siteId := siteId,
        registered := false, registeredAt := none }
    registerDevice { st1 with credentials := some c }
      { generated := 1, saves := [] } env

/-- `_register_device` never generates credentials. -/
theorem registerDevice_generated (st : ProvState) (ev : ProvEvents)
    (env : Env) : (registerDevice st ev env).2.2.generated = ev.generated := by
  cases hc : st.credentials with
  | none => simp [registerDevice, hc]
  | some c =>
    cases hs : env.registerStatus with
    | none => simp [registerDevice, hc, hs]
    | some s =>
      by_cases h : s = 200 ∨ s = 201
      · simp [registerDevice, hc, hs, h]
      · simp [registerDevice, hc, hs, h]

/-- When the store holds registered credentials and remote validation
succeeds, `ensure_registered` returns them unchanged: no generation, no
store write. -/
theorem ensureRegistered_valid (st : ProvState) (env : Env) (t s : String)
    (c : DeviceCredentials) (s' : Store)
    (hl : storeLoad st.store = (some c, s'))
    (hreg : c.registered = true) (hv : env.validateOk = true) :
    ensureRegistered st env t s =
      ({ success := true, deviceId := some c.deviceId },
       { store := s', credentials := some c },
       { generated := 0, saves := [] }) := by
  simp [ensureRegistered, hl, hreg, hv]

/-- If the store yields credentials, `ensure_registered` generates nothing. -/
theorem ensureRegistered_generated_zero (st : ProvState) (env : Env)
    (t s : String) (h : (storeLoad st.store).1 ≠ none) :
    (ensureRegistered st env t s).2.2.generated = 0 := by
  rcases hl : storeLoad st.store with ⟨l1, l2⟩
  cases l1 with
  | none => rw [hl] at h; simp at h
  | some cc =>
    by_cases hb : cc.registered && env.validateOk
    · simp [ensureRegistered, hl, hb]
    · simp [ensureRegistered, hl, hb, registerDevice_generated]

/-- C3: with stored credentials marked registered and remote validation
succeeding, two `ensure_registered` calls both return the stored device id,
never generate a fresh id/secret, and leave the stored secret untouched;
generation happens only when the store yields no credentials at all. -/
theorem ensureRegistered_stable_for_valid_credentials
    (c : DeviceCredentials) (env1 env2 : Env) (t s : String)
    (hreg : c.registered = true)
    (hv1 : env1.validateOk = true) (hv2 : env2.validateOk = true) :
    (ensureRegistered ⟨⟨some c, none⟩, none⟩ env1 t s).1.deviceId
      = some c.deviceId ∧
    (ensureRegistered (ensureRegistered ⟨⟨some c, none⟩, none⟩ env1 t s).2.1
        env2 t s).1.deviceId = some c.deviceId ∧
    (ensureRegistered ⟨⟨some c, none⟩, none⟩ env1 t s).2.2.generated = 0 ∧
    (ensureRegistered (ensureRegistered ⟨⟨some c, none⟩, none⟩ env1 t s).2.1
        env2 t s).2.2.generated = 0 ∧
    (ensureRegistered (ensureRegistered ⟨⟨some c, none⟩, none⟩ env1 t s).2.1
        env2 t s).2.1.store.file = some c ∧
    (∀ st env t' s', (ensureRegistered st env t' s').2.2.generated ≠ 0 →
      (storeLoad st.store).1 = none) := by
  have h1 := ensureRegistered_valid ⟨⟨some c, none⟩, none⟩ env1 t s c
    ⟨some c, some c⟩ rfl hreg hv1
  have h2 := ensureRegistered_valid ⟨⟨some c, some c⟩, some c⟩ env2 t s c
    ⟨some c, some c⟩ rfl hreg hv2
  refine ⟨by rw [h1], by rw [h1, h2], by rw [h1], by rw [h1, h2],
    by rw [h1, h2], ?_⟩
  intro st env t' s' hgen
  by_contra hne
  exact hgen (ensureRegistered_generated_zero st env t' s' hne)

/-- Witness for C3: concrete registered credentials validated twice. -/
theorem ensureRegistered_stable_for_valid_credentials_witness :
    (ensureRegistered ⟨⟨some ⟨"edge-1", "sec", "ten", "site", true, some "t0"⟩,
        none⟩, none⟩ ⟨true, some 200, "f-id", "f-sec", "t1"⟩ "ten" "site").1.deviceId
      = some (DeviceCredentials.deviceId ⟨"edge-1", "sec", "ten", "site", true, some "t0"⟩) ∧
    (ensureRegistered (ensureRegistered ⟨⟨some ⟨"edge-1", "sec", "ten", "site", true, some "t0"⟩,
        none⟩, none⟩ ⟨true, some 200, "f-id", "f-sec", "t1"⟩ "ten" "site").2.1
        ⟨true, some 200, "f-id", "f-sec", "t2"⟩ "ten" "site").1.deviceId
      = some (DeviceCredentials.deviceId ⟨"edge-1", "sec", "ten", "site", true, some "t0"⟩) ∧
    (ensureRegistered ⟨⟨some ⟨"edge-1", "sec", "ten", "site", true, some "t0"⟩,
        none⟩, none⟩ ⟨true, some 200, "f-id", "f-sec", "t1"⟩ "ten" "site").2.2.generated = 0 ∧
    (ensureRegistered (ensureRegistered ⟨⟨some ⟨"edge-1", "sec", "ten", "site", true, some "t0"⟩,
        none⟩, none⟩ ⟨true, some 200, "f-id", "f-sec", "t1"⟩ "ten" "site").2.1
        ⟨true, some 200, "f-id", "f-sec", "t2"⟩ "ten" "site").2.2.generated = 0 ∧
    (ensureRegistered (ensureRegistered ⟨⟨some ⟨"edge-1", "sec", "ten", "site", true, some "t0"⟩,
        none⟩, none⟩ ⟨true, some 200, "f-id", "f-sec", "t1"⟩ "ten" "site").2.1
        ⟨true, some 200, "f-id", "f-sec", "t2"⟩ "ten" "site").2.1.store.file
      = some ⟨"edge-1", "sec", "ten", "site", true, some "t0"⟩ ∧
    (∀ st env t' s', (ensureRegistered st env t' s').2.2.generated ≠ 0 →
      (storeLoad st.store).1 = none) :=
  ensureRegistered_stable_for_valid_credentials
    ⟨"edge-1", "sec", "ten", "site", true, some "t0"⟩
    ⟨true, some 200, "f-id", "f-sec", "t1"⟩
    ⟨true, some 200, "f-id", "f-sec", "t2"⟩ "ten" "site" rfl rfl rfl

/-- C4 counterexample: with no stored credentials and a 500 response to
`/api/device/register`, `ensure_registered` returns failure but writes
nothing to the durable store — the claim that failed registration persists
the credentials with `registered=false` is false of the code. -/
theorem register_failure_writes_nothing :
    (ensureRegistered ⟨⟨none, none⟩, none⟩
        ⟨false, some 500, "id-1", "sec-1", "t0"⟩ "ten" "site").1.success
      = false ∧
    (ensureRegistered ⟨⟨none, none⟩, none⟩
        ⟨false, some 500, "id-1", "sec-1", "t0"⟩ "ten" "site").2.2.saves = [] ∧
    (ensureRegistered ⟨⟨none, none⟩, none⟩
        ⟨false, some 500, "id-1", "sec-1", "t0"⟩ "ten" "site").2.1.store.file
      = none := by
  refine ⟨rfl, rfl, rfl⟩

/-- C4 amended: on a non-2xx response or an exception `_register_device`
returns a non-fatal failure result and writes nothing to the store (the
generated credentials stay in memory only); on 200/201 it persists them with
`registered=true` and the registration timestamp. -/
theorem registerDevice_persistence (st : ProvState) (ev : ProvEvents)
    (env : Env) (c : DeviceCredentials) (hc : st.credentials = some c) :
    (∀ s, env.registerStatus = some s → s ≠ 200 → s ≠ 201 →
      (registerDevice st ev env).1.success = false ∧
      (registerDevice st ev env).2.2.saves = ev.saves ∧
      (registerDevice st ev env).2.1.store = st.store) ∧
    (env.registerStatus = none →
      (registerDevice st ev env).1.success = false ∧
      (registerDevice st ev env).2.2.saves = ev.saves ∧
      (registerDevice st ev env).2.1.store = st.store) ∧
    (∀ s, env.registerStatus = some s → (s = 200 ∨ s = 201) →
      (registerDevice st ev env).1.success = true ∧
      (registerDevice st ev env).2.2.saves
        = ev.saves ++ [{ c with registered := true, registeredAt := some env.ts }] ∧
      (registerDevice st ev env).2.1.store.file
        = some { c with registered := true, registeredAt := some env.ts }) := by
  refine ⟨fun s hs h200 h201 => ?_, fun hs => ?_, fun s hs hok => ?_⟩
  · have hno : ¬ (s = 200 ∨ s = 201) := by tauto
    simp [registerDevice, hc, hs, hno]
  · simp [registerDevice, hc, hs]
  · simp [registerDevice, hc, hs, hok, storeSave]

/-- Witness for the amended C4: a successful 201 registration. -/
theorem registerDevice_persistence_witness :
    (∀ s, (⟨true, some 201, "f", "g", "t9"⟩ : Env).registerStatus = some s →
      s ≠ 200 → s ≠ 201 →
      (registerDevice ⟨⟨none, none⟩, some ⟨"d", "x", "ten", "site", false, none⟩⟩
        ⟨1, []⟩ ⟨true, some 201, "f", "g", "t9"⟩).1.success = false ∧
      (registerDevice ⟨⟨none, none⟩, some ⟨"d", "x", "ten", "site", false, none⟩⟩
        ⟨1, []⟩ ⟨true, some 201, "f", "g", "t9"⟩).2.2.saves = ProvEvents.saves ⟨1, []⟩ ∧
      (registerDevice ⟨⟨none, none⟩, some ⟨"d", "x", "ten", "site", false, none⟩⟩
        ⟨1, []⟩ ⟨true, some 201, "f", "g", "t9"⟩).2.1.store
        = ProvState.store ⟨⟨none, none⟩, some ⟨"d", "x", "ten", "site", false, none⟩⟩) ∧
    ((⟨true, some 201, "f", "g", "t9"⟩ : Env).registerStatus = none →
      (registerDevice ⟨⟨none, none⟩, some ⟨"d", "x", "ten", "site", false, none⟩⟩
        ⟨1, []⟩ ⟨true, some 201, "f", "g", "t9"⟩).1.success = false ∧
      (registerDevice ⟨⟨none, none⟩, some ⟨"d", "x", "ten", "site", false, none⟩⟩
        ⟨1, []⟩ ⟨true, some 201, "f", "g", "t9"⟩).2.2.saves = ProvEvents.saves ⟨1, []⟩ ∧
      (registerDevice ⟨⟨none, none⟩, some ⟨"d", "x", "ten", "site", false, none⟩⟩
        ⟨1, []⟩ ⟨true, some 201, "f", "g", "t9"⟩).2.1.store
        = ProvState.store ⟨⟨none, none⟩, some ⟨"d", "x", "ten", "site", false, none⟩⟩) ∧
    (∀ s, (⟨true, some 201, "f", "g", "t9"⟩ : Env).registerStatus = some s →
      (s = 200 ∨ s = 201) →
      (registerDevice ⟨⟨none, none⟩, some ⟨"d", "x", "ten", "site", false, none⟩⟩
        ⟨1, []⟩ ⟨true, some 201, "f", "g", "t9"⟩).1.success = true ∧
      (registerDevice ⟨⟨none, none⟩, some ⟨"d", "x", "ten", "site", false, none⟩⟩
        ⟨1, []⟩ ⟨true, some 201, "f", "g", "t9"⟩).2.2.saves
        = ProvEvents.saves ⟨1, []⟩ ++
          [{ (⟨"d", "x", "ten", "site", false, none⟩ : DeviceCredentials) with
              registered := true,
              registeredAt := some (Env.ts ⟨true, some 201, "f", "g", "t9"⟩) }] ∧
      (registerDevice ⟨⟨none, none⟩, some ⟨"d", "x", "ten", "site", false, none⟩⟩
        ⟨1, []⟩ ⟨true, some 201, "f", "g", "t9"⟩).2.1.store.file
        = some { (⟨"d", "x", "ten", "site", false, none⟩ : DeviceCredentials) with
              registered := true,
              registeredAt := some (Env.ts ⟨true, some 201, "f", "g", "t9"⟩) }) :=
  registerDevice_persistence
    ⟨⟨none, none⟩, some ⟨"d", "x", "ten", "site", false, none⟩⟩ ⟨1, []⟩
    ⟨true, some 201, "f", "g", "t9"⟩ ⟨"d", "x", "ten", "site", false, none⟩ rfl

end Provisioning

namespace Orchestrator

/-!
## Orchestrator main loop (`main.py`, `EdgeAgent.start`, lines 160–205)

Per iteration: a `None` frame sleeps 0.1 s and continues; a processed frame
resets `consecutive_errors` to 0; a `ConnectionError`/`TimeoutError`/`OSError`
increments the counter, sleeps `min(base_backoff * 2 ** consecutive_errors,
max_backoff)` with `base_backoff = 1`, `max_backoff = 60`, and — once the
counter is ≥ 3 — performs one `disconnect()` followed by one `connect()`,
resetting the counter to 0 only when the `connect()` succeeds; a `ValueError`
sleeps 0.5 s without touching the counter; any other exception increments the
counter and sleeps `min(base_backoff * consecutive_errors, max_backoff)`.
-/

/-- How one iteration of the `while self.running` body ends. -/
inductive IterOutcome where
  | frameNone
  | success
  | connectivity
  | dataError
  | unexpected
deriving DecidableEq, Repr

/-- Observable actions of one iteration, in order. -/
inductive Event where
  | sleep (seconds : ℚ)
  | disconnect
  | connect (ok : Bool)
deriving DecidableEq, Repr

/-- One iteration of the main loop: current `consecutive_errors`, the
iteration's outcome, and whether a `connect()` issued this iteration would
succeed.  Returns the new counter and the events performed. -/
def step (counter : ℕ) (out : IterOutcome) (reconnectOk : Bool) :
    ℕ × List Event :=
  match out with
  | .frameNone => (counter, [.sleep (1/10)])
  | .success => (0, [])
  | .connectivity =>
    let c' := counter + 1
    let backoff : ℚ := min ((1 : ℚ) * 2 ^ c') 60
    if 3 ≤ c' then
      (if reconnectOk then 0 else c',
       [.sleep backoff, .disconnect, .connect reconnectOk])
    else (c', [.sleep backoff])
  | .dataError => (counter, [.sleep (1/2)])
  | .unexpected =>
    let c' := counter + 1
    (c', [.sleep (min ((1 : ℚ) * c') 60)])

/-- Run the loop over a trace of (outcome, would-reconnect-succeed) pairs. -/
def run (counter : ℕ) : List (IterOutcome × Bool) → ℕ × List Event
  | [] => (counter, [])
  | (o, r) :: rest =>
    let s := step counter o r
    let t := run s.1 rest
    (t.1, s.2 ++ t.2)

/-- Does an event mark the start of a disconnect+reconnect cycle? -/
def isDisconnect : Event → Bool
  | .disconnect => true
  | _ => false

/-- C6: a connectivity-class failure increments the consecutive-error counter
and sleeps `min(base * 2^counter, cap)`; an iteration whose incremented
counter reaches 3 performs exactly one disconnect+reconnect cycle, resetting
the counter only if the reconnect succeeds; a successful iteration resets the
counter to zero; and three consecutive connectivity failures from a clean
state produce exactly one disconnect+reconnect, on the third failure. -/
theorem mainLoop_connectivity_backoff_and_reconnect :
    (∀ c r, (Event.sleep (min ((1 : ℚ) * 2 ^ (c + 1)) 60)) ∈ (step c .connectivity r).2) ∧
    (∀ c r, c + 1 < 3 →
      step c .connectivity r
        = (c + 1, [.sleep (min ((1 : ℚ) * 2 ^ (c + 1)) 60)])) ∧
    (∀ c r, 3 ≤ c + 1 →
      (step c .connectivity r).1 = (if r then 0 else c + 1) ∧
      (step c .connectivity r).2.countP isDisconnect = 1) ∧
    (∀ c r, (step c .success r) = (0, [])) ∧
    (∀ r1 r2 r3,
      ((run 0 [(.connectivity, r1), (.connectivity, r2), (.connectivity, r3),
               (.success, true)]).2.countP isDisconnect = 1) ∧
      ((run 0 [(.connectivity, r1), (.connectivity, r2), (.connectivity, r3),
               (.success, true)]).2.take 4
        = [.sleep 2, .sleep 4, .sleep (min ((1 : ℚ) * 2 ^ 3) 60), .disconnect]) ∧
      (run 0 [(.connectivity, r1), (.connectivity, r2), (.connectivity, r3),
               (.success, true)]).1 = 0) := by
  refine ⟨?_, ?_, ?_, ?_, ?_⟩
  · intro c r
    by_cases h : 3 ≤ c + 1 <;> simp [step, h]
  · intro c r h
    have h' : ¬ 3 ≤ c + 1 := by omega
    simp [step, h']
  · intro c r h
    simp [step, h, isDisconnect]
  · intro c r
    rfl
  · intro r1 r2 r3
    cases r3 <;>
      refine ⟨by norm_num [run, step, isDisconnect], ?_, by norm_num [run, step]⟩ <;>
      norm_num [run, step]

/-- Witness for C6 at concrete counters and a concrete trace. -/
theorem mainLoop_connectivity_backoff_and_reconnect_witness :
    ((Event.sleep (min ((1 : ℚ) * 2 ^ (0 + 1)) 60))
      ∈ (step 0 .connectivity true).2) ∧
    (step 0 .connectivity true
      = (0 + 1, [.sleep (min ((1 : ℚ) * 2 ^ (0 + 1)) 60)])) ∧
    ((step 2 .connectivity true).1 = (if true then 0 else 2 + 1) ∧
      (step 2 .connectivity true).2.countP isDisconnect = 1) ∧
    (step 4 .success true = (0, [])) ∧
    (((run 0 [(.connectivity, true), (.connectivity, true), (.connectivity, true),
             (.success, true)]).2.countP isDisconnect = 1) ∧
     ((run 0 [(.connectivity, true), (.connectivity, true), (.connectivity, true),
             (.success, true)]).2.take 4
       = [.sleep 2, .sleep 4, .sleep (min ((1 : ℚ) * 2 ^ 3) 60), .disconnect]) ∧
     (run 0 [(.connectivity, true), (.connectivity, true), (.connectivity, true),
             (.success, true)]).1 = 0) :=
  ⟨mainLoop_connectivity_backoff_and_reconnect.1 0 true,
   mainLoop_connectivity_backoff_and_reconnect.2.1 0 true (by omega),
   mainLoop_connectivity_backoff_and_reconnect.2.2.1 2 true (by omega),
   mainLoop_connectivity_backoff_and_reconnect.2.2.2.1 4 true,
   mainLoop_connectivity_backoff_and_reconnect.2.2.2.2 true true true⟩

end Orchestrator

namespace Ingestion

/-!
## Live Frame Source (`ingestion/rtsp_client.py`, `RTSPClient.get_frame`,
lines 80–122)

`get_frame` returns `None` when not connected or the capture is unset;
returns `None` without any state change when called before the frame
interval has elapsed; on a successful read it records the frame time and
returns the frame; on a read failure it calls `_reconnect()`, which sets
`connected = False`, releases the capture, sleeps 1 s and calls `connect()`
— an internal reconnection attempt whose success re-sets `connected = True`
— then returns `None`.
-/

/-- `RTSPClient` state: `self.connected`, whether `self.cap` is set, and
`self._last_frame_time`. -/
structure RTSPState where
  connected : Bool
  hasCap : Bool
  lastFrameTime : ℚ
deriving DecidableEq, Repr

/-- Observable actions of one `get_frame` call, in order. -/
inductive REvent where
  | read
  | sleep (seconds : ℚ)
  | connectAttempt (ok : Bool)
deriving DecidableEq, Repr

/-- `RTSPClient.get_frame`: `now` is the event-loop clock, `readOk` whether
`cap.read()` yields a frame, `reconnectOpens` whether the capture a
`connect()` issued now would open.  Returns (frame?, new state, events). -/
def getFrame (st : RTSPState) (frameInterval now : ℚ)
    (readOk reconnectOpens : Bool) :
    Option Unit × RTSPState × List REvent :=
  if ¬ (st.connected && st.hasCap) then (none, st, [])
  else if now - st.lastFrameTime < frameInterval then (none, st, [])
  else if readOk then
    (some (), { st with lastFrameTime := now }, [.read])
  else
    (none,
     { connected := reconnectOpens, hasCap := true,
       lastFrameTime := st.lastFrameTime },
     [.read, .sleep 1, .connectAttempt reconnectOpens])

/-- C9 counterexample: on a read failure (connected client, interval elapsed,
read fails, a fresh capture would open) `get_frame` reconnects internally —
it issues a `connect()` attempt itself and comes back `connected = true`
without the Orchestrator calling `connect` — refuting the claim that
re-establishing the connection is driven only by the Orchestrator. -/
theorem getFrame_read_failure_reconnects_internally :
    (getFrame ⟨true, true, 0⟩ (1/5) 10 false true).1 = none ∧
    REvent.connectAttempt true ∈ (getFrame ⟨true, true, 0⟩ (1/5) 10 false true).2.2 ∧
    (getFrame ⟨true, true, 0⟩ (1/5) 10 false true).2.1.connected = true := by
  refine ⟨?_, ?_, ?_⟩ <;> norm_num [getFrame]

/-- C9 amended: on a read failure the live source marks itself disconnected
and immediately attempts one internal reconnect (its `connected` flag ends
equal to that attempt's success) before returning none; and a call made
before the configured frame interval has elapsed returns none with the state
unchanged. -/
theorem getFrame_failure_and_rate_limit (st : RTSPState)
    (frameInterval now : ℚ) (readOk reconnectOpens : Bool)
    (hc : st.connected = true) (hcap : st.hasCap = true) :
    (now - st.lastFrameTime < frameInterval →
      getFrame st frameInterval now readOk reconnectOpens = (none, st, [])) ∧
    (¬ now - st.lastFrameTime < frameInterval → readOk = false →
      (getFrame st frameInterval now readOk reconnectOpens).1 = none ∧
      (getFrame st frameInterval now readOk reconnectOpens).2.1
        = { connected := reconnectOpens, hasCap := true,
            lastFrameTime := st.lastFrameTime } ∧
      (getFrame st frameInterval now readOk reconnectOpens).2.2
        = [.read, .sleep 1, .connectAttempt reconnectOpens]) := by
  constructor
  · intro hrate
    simp [getFrame, hc, hcap, hrate]
  · intro hrate hread
    subst hread
    simp [getFrame, hc, hcap, hrate]

/-- Witness for the amended C9: a rate-limited call at a concrete state. -/
theorem getFrame_failure_and_rate_limit_witness :
    (((10 : ℚ) - RTSPState.lastFrameTime ⟨true, true, 10⟩ < (1/5) →
      getFrame ⟨true, true, 10⟩ (1/5) 10 false true
        = (none, ⟨true, true, 10⟩, [])) ∧
    (¬ (10 : ℚ) - RTSPState.lastFrameTime ⟨true, true, 10⟩ < (1/5) →
      false = false →
      (getFrame ⟨true, true, 10⟩ (1/5) 10 false true).1 = none ∧
      (getFrame ⟨true, true, 10⟩ (1/5) 10 false true).2.1
        = { connected := true, hasCap := true,
            lastFrameTime := RTSPState.lastFrameTime ⟨true, true, 10⟩ } ∧
      (getFrame ⟨true, true, 10⟩ (1/5) 10 false true).2.2
        = [.read, .sleep 1, .connectAttempt true])) :=
  getFrame_failure_and_rate_limit ⟨true, true, 10⟩ (1/5) 10 false true rfl rfl

end Ingestion

namespace Zones

/-!
## Zone Registry (`zones/zone_manager.py`)

`Zone.contains_point` implements even–odd ray casting: with fewer than 3
vertices it returns `False`; otherwise it iterates `i` over the vertices with
`j` the preceding index (starting at `n - 1`), toggling `inside` whenever
`(yi > y) != (yj > y)` and `x < (xj - xi) * (y - yi) / (yj - yi) + xi`.
Vertex coordinates and the test point are embedded as rationals (the Python
floats' exact arithmetic).

`Zone.get_mask` allocates a zero raster of the frame shape and calls
`cv2.fillPoly(mask, [polygon], 255)` with no degenerate-polygon guard.
`fillPoly` is third-party (OpenCV); it is modelled below from its documented
behaviour: every contour edge is rasterized with the 8-connected line drawer
(OpenCV's `CollectPolyEdges` draws each edge, so 1- and 2-point contours
paint their point/segment), and the interior is filled by the even–odd
scan rule, modelled by the even–odd point test.
-/

/-- The toggle condition of `contains_point`'s loop for index `i` (with `j`
the cyclically preceding index): `(yi > y) != (yj > y) and
x < (xj - xi) * (y - yi) / (yj - yi) + xi`. -/
def edgeTest (poly : List (ℚ × ℚ)) (x y : ℚ) (i : ℕ) : Bool :=
  let n := poly.length
  let vi := poly.getD i (0, 0)
  let vj := poly.getD ((i + n - 1) % n) (0, 0)
  (decide (y < vi.2) != decide (y < vj.2))
    && decide (x < (vj.1 - vi.1) * (y - vi.2) / (vj.2 - vi.2) + vi.1)

/-- `Zone.contains_point`. -/
def containsPoint (poly : List (ℚ × ℚ)) (x y : ℚ) : Bool :=
  if poly.length < 3 then false
  else
    (List.range poly.length).foldl
      (fun inside i => if edgeTest poly x y i then !inside else inside) false

/-- Model of OpenCV's 8-connected line rasterizer (`cv::Line`) by rounded
digital differential analysis; only its value on degenerate (single-pixel)
segments matters to the theorems below. -/
def linePix (a b : ℤ × ℤ) : List (ℤ × ℤ) :=
  let dx := b.1 - a.1
  let dy := b.2 - a.2
  let steps : ℕ := max dx.natAbs dy.natAbs
  if steps = 0 then [a]
  else
    (List.range (steps + 1)).map fun i =>
      (a.1 + (2 * dx * i + steps) / (2 * steps),
       a.2 + (2 * dy * i + steps) / (2 * steps))

/-- The closed contour's edges, `(v_i, v_{i+1})` cyclically. -/
def cycEdges : List (ℤ × ℤ) → List ((ℤ × ℤ) × (ℤ × ℤ))
  | [] => []
  | v :: rest => (v :: rest).zip (rest ++ [v])

/-- Model of `cv2.fillPoly` at one pixel: painted iff on a rasterized contour
edge or inside by the even–odd rule. -/
def fillPolyPix (poly : List (ℤ × ℤ)) (p : ℤ × ℤ) : Bool :=
  (cycEdges poly).any (fun e => decide (p ∈ linePix e.1 e.2))
    || containsPoint (poly.map fun v => ((v.1 : ℚ), (v.2 : ℚ))) p.1 p.2

/-- `Zone.get_mask`: the `shape = (height, width)` raster, row-major, pixel
`(row r, column c)` tested at point `(x, y) = (c, r)`. -/
def getMask (poly : List (ℤ × ℤ)) (h w : ℕ) : List (List Bool) :=
  (List.range h).map fun r =>
    (List.range w).map fun c => fillPolyPix poly ((c : ℤ), (r : ℤ))

/-- C7 counterexample: a one-vertex polygon (fewer than 3 vertices) yields a
mask that is not all-zero — `fillPoly` paints the degenerate contour's pixel,
here pixel (1,1) of a 3×3 frame. -/
theorem degenerate_mask_not_all_zero :
    ([((1 : ℤ), (1 : ℤ))].length < 3) ∧
    ((getMask [(1, 1)] 3 3).getD 1 []).getD 1 false = true := by
  exact ⟨by decide, by decide⟩

/-- C7 amended: a polygon with fewer than 3 vertices contains no point, and
the mask of an *empty* polygon is all-zero for every frame shape (non-empty
degenerate polygons still get their boundary pixels painted by `fillPoly`). -/
theorem degenerate_contains_none_empty_mask_zero :
    (∀ poly x y, poly.length < 3 → containsPoint poly x y = false) ∧
    (∀ h w, ∀ row ∈ getMask [] h w, ∀ b ∈ row, b = false) := by
  constructor
  · intro poly x y h
    simp [containsPoint, h]
  · intro h w row hrow b hb
    simp only [getMask, List.mem_map] at hrow
    obtain ⟨r, _, rfl⟩ := hrow
    simp only [List.mem_map] at hb
    obtain ⟨c, _, rfl⟩ := hb
    simp [fillPolyPix, cycEdges, containsPoint]

/-- Witness for the amended C7 at a concrete degenerate polygon and a
concrete pixel of the empty polygon's mask. -/
theorem degenerate_contains_none_empty_mask_zero_witness :
    containsPoint [((0 : ℚ), (0 : ℚ))] 5 5 = false ∧ (false : Bool) = false :=
  ⟨degenerate_contains_none_empty_mask_zero.1 [(0, 0)] 5 5 (by decide),
   degenerate_contains_none_empty_mask_zero.2 2 2 ((getMask [] 2 2).getD 0 [])
     (by decide) false (by decide)⟩

/-- A fold of conditional toggles computes the parity of the satisfied
conditions. -/
theorem foldl_toggle (P : ℕ → Bool) (L : List ℕ) (b : Bool) :
    L.foldl (fun ins i => if P i then !ins else ins) b
      = if L.countP P % 2 = 1 then !b else b := by
  induction L generalizing b with
  | nil => simp
  | cons a L ih =>
    rw [List.foldl_cons, ih]
    by_cases hpa : P a
    · rw [List.countP_cons_of_pos _ _ hpa]
      rcases Nat.mod_two_eq_zero_or_one (L.countP P) with h | h
      · have h2 : (L.countP P + 1) % 2 = 1 := by omega
        simp [hpa, h, h2]
      · have h2 : (L.countP P + 1) % 2 = 0 := by omega
        simp [hpa, h, h2]
    · rw [List.countP_cons_of_neg _ _ (by simpa using hpa)]
      simp [hpa]

/-- `contains_point` on a non-degenerate polygon is the parity of the number
of edges whose toggle condition holds. -/
theorem containsPoint_eq_parity (poly : List (ℚ × ℚ)) (x y : ℚ)
    (h3 : 3 ≤ poly.length) :
    containsPoint poly x y
      = decide ((List.range poly.length).countP (edgeTest poly x y) % 2 = 1) := by
  have h : ¬ poly.length < 3 := by omega
  rw [containsPoint, if_neg h, foldl_toggle]
  by_cases hm : (List.range poly.length).countP (edgeTest poly x y) % 2 = 1 <;>
    simp [hm]

/-- Adding `n - k % n` undoes the cyclic shift by `k` modulo `n`. -/
theorem mod_shift_left_inverse (n k i : ℕ) (hn : 0 < n) (hi : i < n) :
    ((i + k) % n + (n - k % n)) % n = i := by
  have hk : k % n ≤ k := Nat.mod_le k n
  have hkn : k % n < n := Nat.mod_lt k hn
  rw [Nat.mod_add_mod]
  have he : i + k + (n - k % n) = i + (k - k % n) + n := by omega
  rw [he, Nat.add_mod_right]
  have hdiv : k - k % n = n * (k / n) := by
    have := Nat.div_add_mod k n
    omega
  rw [hdiv, Nat.add_mul_mod_self_left, Nat.mod_eq_of_lt hi]

/-- `getD` on a rotated list reads the shifted index of the original. -/
theorem getD_rotate (l : List (ℚ × ℚ)) (k i : ℕ) (d : ℚ × ℚ)
    (hi : i < l.length) :
    (l.rotate k).getD i d = l.getD ((i + k) % l.length) d := by
  have hi' : i < (l.rotate k).length := by rw [List.length_rotate]; exact hi
  have hlt : (i + k) % l.length < l.length := Nat.mod_lt _ (by omega)
  rw [List.getD_eq_getElem _ _ hi', List.getD_eq_getElem _ _ hlt,
    List.getElem_rotate]

/-- The cyclic shift `i ↦ (i + k) % n` permutes `range n`. -/
theorem map_shift_mod_perm_range (n k : ℕ) (hn : 0 < n) :
    ((List.range n).map (fun i => (i + k) % n)).Perm (List.range n) := by
  have hnd : ((List.range n).map (fun i => (i + k) % n)).Nodup := by
    refine List.Nodup.map_on ?_ (List.nodup_range n)
    intro a ha b hb hab
    have ha' : a < n := List.mem_range.mp ha
    have hb' : b < n := List.mem_range.mp hb
    have := congrArg (fun z => (z + (n - k % n)) % n) hab
    simpa [mod_shift_left_inverse n k a hn ha',
      mod_shift_left_inverse n k b hn hb'] using this
  refine List.perm_of_nodup_nodup_toFinset_eq hnd (List.nodup_range n) ?_
  have hsub : ((List.range n).map (fun i => (i + k) % n)).toFinset
      ⊆ (List.range n).toFinset := by
    intro a ha
    simp only [List.mem_toFinset, List.mem_map] at ha ⊢
    obtain ⟨i, _, rfl⟩ := ha
    exact List.mem_range.mpr (Nat.mod_lt _ hn)
  refine Finset.eq_of_subset_of_card_le hsub ?_
  rw [List.toFinset_card_of_nodup hnd,
    List.toFinset_card_of_nodup (List.nodup_range n)]
  simp

/-- Counting over `range n` is invariant under composing with a cyclic
shift. -/
theorem countP_range_shift (n k : ℕ) (hn : 0 < n) (g : ℕ → Bool) :
    (List.range n).countP (fun i => g ((i + k) % n))
      = (List.range n).countP g := by
  have h1 : (List.range n).countP (fun i => g ((i + k) % n))
      = ((List.range n).map (fun i => (i + k) % n)).countP g := by
    rw [List.countP_map]
    rfl
  rw [h1]
  exact (map_shift_mod_perm_range n k hn).countP_eq g

/-- The toggle condition of the rotated polygon at index `i` is the original
polygon's at the shifted index. -/
theorem edgeTest_rotate (poly : List (ℚ × ℚ)) (x y : ℚ) (k i : ℕ)
    (hn : 0 < poly.length) (hi : i < poly.length) :
    edgeTest (poly.rotate k) x y i
      = edgeTest poly x y ((i + k) % poly.length) := by
  have hj : (i + poly.length - 1) % poly.length < poly.length :=
    Nat.mod_lt _ hn
  have hidx : ((i + poly.length - 1) % poly.length + k) % poly.length
      = ((i + k) % poly.length + poly.length - 1) % poly.length := by
    rw [Nat.mod_add_mod]
    have e1 : (i + k) % poly.length + poly.length - 1
        = (i + k) % poly.length + (poly.length - 1) := by omega
    rw [e1, Nat.mod_add_mod]
    congr 1
    omega
  simp only [edgeTest, List.length_rotate]
  rw [getD_rotate _ _ _ _ hi, getD_rotate _ _ _ _ hj, hidx]

/-- Rotation invariance of `contains_point` for non-degenerate polygons. -/
theorem containsPoint_rotate (poly : List (ℚ × ℚ)) (x y : ℚ) (k : ℕ)
    (h3 : 3 ≤ poly.length) :
    containsPoint (poly.rotate k) x y = containsPoint poly x y := by
  have hn : 0 < poly.length := by omega
  have hlen : (poly.rotate k).length = poly.length := List.length_rotate poly k
  have h3' : 3 ≤ (poly.rotate k).length := by omega
  rw [containsPoint_eq_parity _ _ _ h3', containsPoint_eq_parity _ _ _ h3, hlen]
  have hpt : ∀ i ∈ List.range poly.length,
      edgeTest (poly.rotate k) x y i
        = edgeTest poly x y ((i + k) % poly.length) :=
    fun i hi => edgeTest_rotate poly x y k i hn (List.mem_range.mp hi)
  have hc : (List.range poly.length).countP (edgeTest (poly.rotate k) x y)
      = (List.range poly.length).countP (edgeTest poly x y) := by
    rw [List.countP_congr (fun i hi => by rw [hpt i hi]),
      countP_range_shift _ _ hn]
  rw [hc]

/-- An affine interpolation with coefficient in `[0, 1]` stays between the
endpoints. -/
theorem affine_between (xi xj t : ℚ) (ht0 : 0 ≤ t) (ht1 : t ≤ 1) :
    min xi xj ≤ (xj - xi) * t + xi ∧ (xj - xi) * t + xi ≤ max xi xj := by
  constructor
  · rcases le_total xi xj with hle | hle
    · rw [min_eq_left hle]; nlinarith
    · rw [min_eq_right hle]; nlinarith
  · rcases le_total xi xj with hle | hle
    · rw [max_eq_right hle]; nlinarith
    · rw [max_eq_left hle]; nlinarith

/-- When the toggle's first conjunct holds, the edge's x-intercept at the
test height lies between the edge endpoints' x-coordinates. -/
theorem xcross_between (xi yi xj yj y : ℚ)
    (h : (decide (y < yi) != decide (y < yj)) = true) :
    min xi xj ≤ (xj - xi) * (y - yi) / (yj - yi) + xi ∧
    (xj - xi) * (y - yi) / (yj - yi) + xi ≤ max xi xj := by
  rw [mul_div_assoc]
  by_cases hyi : y < yi <;> by_cases hyj : y < yj <;> simp [hyi, hyj] at h
  · have hyj' : yj ≤ y := not_lt.mp hyj
    have hd : yj - yi < 0 := by linarith
    exact affine_between xi xj _
      (div_nonneg_iff.mpr (Or.inr ⟨by linarith, by linarith⟩))
      (by rw [div_le_iff_of_neg hd]; linarith)
  · have hyi' : yi ≤ y := not_lt.mp hyi
    have hd : 0 < yj - yi := by linarith
    exact affine_between xi xj _
      (div_nonneg (by linarith) (by linarith))
      (by rw [div_le_one hd]; linarith)

/-- Folds of functions that agree on the list's elements agree. -/
theorem foldl_congr_mem {α β : Type} (L : List α) (f g : β → α → β) (b : β)
    (h : ∀ x ∈ L, ∀ acc, f acc x = g acc x) : L.foldl f b = L.foldl g b := by
  induction L generalizing b with
  | nil => rfl
  | cons a L ih =>
    rw [List.foldl_cons, List.foldl_cons, h a (by simp)]
    exact ih _ (fun x hx acc => h x (by simp [hx]) acc)

/-- Toggling by the sign changes of a cyclic boolean sequence telescopes:
after the first `j` steps the accumulator compares `B (j-1)` with the
starting value `B (n-1)`. -/
theorem fold_neq_prev_aux (B : ℕ → Bool) (n : ℕ) (hn : 1 ≤ n) :
    ∀ j, 1 ≤ j → j ≤ n →
      (List.range j).foldl
        (fun ins i => if (B i != B ((i + n - 1) % n)) then !ins else ins) false
        = (B (j - 1) != B (n - 1)) := by
  intro j
  induction j with
  | zero => intro h1 _; exact absurd h1 (by omega)
  | succ j ih =>
    intro h1 h2
    by_cases hj : j = 0
    · subst hj
      have e : 0 + n - 1 = n - 1 := by omega
      have hmod : (0 + n - 1) % n = n - 1 := by
        rw [e, Nat.mod_eq_of_lt (by omega)]
      simp only [List.range_succ, List.range_zero, List.nil_append,
        List.foldl_cons, List.foldl_nil, hmod]
      cases hb1 : B 0 <;> cases hb2 : B (n - 1) <;> simp [hb1, hb2]
    · have hj1 : 1 ≤ j := by omega
      have hj2 : j ≤ n := by omega
      rw [List.range_succ, List.foldl_append, ih hj1 hj2]
      simp only [List.foldl_cons, List.foldl_nil]
      have hmod : (j + n - 1) % n = j - 1 := by
        have e : j + n - 1 = (j - 1) + n := by omega
        rw [e, Nat.add_mod_right, Nat.mod_eq_of_lt (by omega)]
      rw [hmod]
      have hsub : j + 1 - 1 = j := by omega
      rw [hsub]
      cases hb1 : B j <;> cases hb2 : B (j - 1) <;> cases hb3 : B (n - 1) <;>
        simp [hb1, hb2, hb3]

/-- A full cycle of sign-change toggles returns to `false`: a cyclic boolean
sequence changes value an even number of times. -/
theorem fold_neq_prev (B : ℕ → Bool) (n : ℕ) (hn : 1 ≤ n) :
    (List.range n).foldl
      (fun ins i => if (B i != B ((i + n - 1) % n)) then !ins else ins) false
      = false := by
  rw [fold_neq_prev_aux B n hn n hn le_rfl]
  simp

/-- C8: for a polygon with at least 3 vertices, `contains_point` is invariant
under every cyclic rotation of the vertex list, and returns `false` for every
test point strictly outside the polygon's bounding box (strictly left of,
right of, above, or below every vertex). -/
theorem containsPoint_rotation_and_outside_bbox (poly : List (ℚ × ℚ))
    (x y : ℚ) (h3 : 3 ≤ poly.length) :
    (∀ k, containsPoint (poly.rotate k) x y = containsPoint poly x y) ∧
    (((∀ v ∈ poly, x < v.1) ∨ (∀ v ∈ poly, v.1 < x) ∨
      (∀ v ∈ poly, y < v.2) ∨ (∀ v ∈ poly, v.2 < y)) →
      containsPoint poly x y = false) := by
  have hn : 0 < poly.length := by omega
  refine ⟨fun k => containsPoint_rotate poly x y k h3, ?_⟩
  have hmem : ∀ i, i < poly.length → poly.getD i (0, 0) ∈ poly := by
    intro i hi
    rw [List.getD_eq_getElem _ _ hi]
    exact List.getElem_mem hi
  have hjlt : ∀ i, (i + poly.length - 1) % poly.length < poly.length :=
    fun i => Nat.mod_lt _ hn
  rintro (hx | hx | hy | hy)
  · -- x strictly left of every vertex: the second conjunct always holds when
    -- the first does, so the fold telescopes over the sign changes of
    -- `y < y_vertex` around the cycle, which are even in number.
    rw [containsPoint, if_neg (by omega)]
    have hpt : ∀ i ∈ List.range poly.length, edgeTest poly x y i
        = (decide (y < (poly.getD i (0, 0)).2)
            != decide (y < (poly.getD ((i + poly.length - 1) % poly.length)
                (0, 0)).2)) := by
      intro i hi
      have hi' := List.mem_range.mp hi
      by_cases hb : (decide (y < (poly.getD i (0, 0)).2)
          != decide (y < (poly.getD ((i + poly.length - 1) % poly.length)
              (0, 0)).2)) = true
      · have hcr := (xcross_between (poly.getD i (0, 0)).1
          (poly.getD i (0, 0)).2
          (poly.getD ((i + poly.length - 1) % poly.length) (0, 0)).1
          (poly.getD ((i + poly.length - 1) % poly.length) (0, 0)).2 y hb).1
        have hxi : x < (poly.getD i (0, 0)).1 := hx _ (hmem i hi')
        have hxj : x < (poly.getD ((i + poly.length - 1) % poly.length)
            (0, 0)).1 := hx _ (hmem _ (hjlt i))
        have hlt : x < ((poly.getD ((i + poly.length - 1) % poly.length)
              (0, 0)).1 - (poly.getD i (0, 0)).1)
            * (y - (poly.getD i (0, 0)).2)
            / ((poly.getD ((i + poly.length - 1) % poly.length) (0, 0)).2
              - (poly.getD i (0, 0)).2) + (poly.getD i (0, 0)).1 :=
          lt_of_lt_of_le (lt_min hxi hxj) hcr
        simp only [edgeTest]
        rw [hb, Bool.true_and, decide_eq_true hlt]
      · have hb' : (decide (y < (poly.getD i (0, 0)).2)
            != decide (y < (poly.getD ((i + poly.length - 1) % poly.length)
                (0, 0)).2)) = false := by
          simpa using hb
        simp only [edgeTest]
        rw [hb', Bool.false_and]
    rw [foldl_congr_mem _ _ _ _ (fun i hi acc => by rw [hpt i hi])]
    exact fold_neq_prev (fun j => decide (y < (poly.getD j (0, 0)).2))
      poly.length (by omega)
  · -- x strictly right of every vertex: the x-intercept never exceeds the
    -- bounding box, so no edge toggles.
    rw [containsPoint_eq_parity _ _ _ h3]
    have hzero : (List.range poly.length).countP (edgeTest poly x y) = 0 := by
      rw [List.countP_eq_zero]
      intro i hi
      have hi' := List.mem_range.mp hi
      by_cases hb : (decide (y < (poly.getD i (0, 0)).2)
          != decide (y < (poly.getD ((i + poly.length - 1) % poly.length)
              (0, 0)).2)) = true
      · have hcr := (xcross_between (poly.getD i (0, 0)).1
          (poly.getD i (0, 0)).2
          (poly.getD ((i + poly.length - 1) % poly.length) (0, 0)).1
          (poly.getD ((i + poly.length - 1) % poly.length) (0, 0)).2 y hb).2
        have hxi : (poly.getD i (0, 0)).1 < x := hx _ (hmem i hi')
        have hxj : (poly.getD ((i + poly.length - 1) % poly.length)
            (0, 0)).1 < x := hx _ (hmem _ (hjlt i))
        have hge : ¬ x < ((poly.getD ((i + poly.length - 1) % poly.length)
              (0, 0)).1 - (poly.getD i (0, 0)).1)
            * (y - (poly.getD i (0, 0)).2)
            / ((poly.getD ((i + poly.length - 1) % poly.length) (0, 0)).2
              - (poly.getD i (0, 0)).2) + (poly.getD i (0, 0)).1 :=
          not_lt.mpr (le_of_lt (lt_of_le_of_lt hcr (max_lt hxi hxj)))
        simp only [edgeTest]
        rw [hb, Bool.true_and, decide_eq_false hge]
        exact Bool.false_ne_true
      · have hb' : (decide (y < (poly.getD i (0, 0)).2)
            != decide (y < (poly.getD ((i + poly.length - 1) % poly.length)
                (0, 0)).2)) = false := by
          simpa using hb
        simp only [edgeTest]
        rw [hb', Bool.false_and]
        exact Bool.false_ne_true
    rw [hzero]
    simp
  · -- y strictly below every vertex: both endpoints test `true`, no toggle.
    rw [containsPoint_eq_parity _ _ _ h3]
    have hzero : (List.range poly.length).countP (edgeTest poly x y) = 0 := by
      rw [List.countP_eq_zero]
      intro i hi
      have hi' := List.mem_range.mp hi
      have h1 : y < (poly.getD i (0, 0)).2 := hy _ (hmem i hi')
      have h2 : y < (poly.getD ((i + poly.length - 1) % poly.length)
          (0, 0)).2 := hy _ (hmem _ (hjlt i))
      simp only [edgeTest]
      rw [decide_eq_true h1, decide_eq_true h2, bne_self_eq_false,
        Bool.false_and]
      exact Bool.false_ne_true
    rw [hzero]
    simp
  · -- y strictly above every vertex: both endpoints test `false`, no toggle.
    rw [containsPoint_eq_parity _ _ _ h3]
    have hzero : (List.range poly.length).countP (edgeTest poly x y) = 0 := by
      rw [List.countP_eq_zero]
      intro i hi
      have hi' := List.mem_range.mp hi
      have h1 : ¬ y < (poly.getD i (0, 0)).2 := lt_asymm (hy _ (hmem i hi'))
      have h2 : ¬ y < (poly.getD ((i + poly.length - 1) % poly.length)
          (0, 0)).2 := lt_asymm (hy _ (hmem _ (hjlt i)))
      simp only [edgeTest]
      rw [decide_eq_false h1, decide_eq_false h2, bne_self_eq_false,
        Bool.false_and]
      exact Bool.false_ne_true
    rw [hzero]
    simp

/-- Witness for C8: a concrete triangle, one concrete rotation, and a point
strictly right of its bounding box. -/
theorem containsPoint_rotation_and_outside_bbox_witness :
    containsPoint ([((0 : ℚ), (0 : ℚ)), (4, 0), (0, 4)].rotate 1) 10 1
      = containsPoint [((0 : ℚ), (0 : ℚ)), (4, 0), (0, 4)] 10 1 ∧
    containsPoint [((0 : ℚ), (0 : ℚ)), (4, 0), (0, 4)] 10 1 = false :=
  ⟨(containsPoint_rotation_and_outside_bbox
      [((0 : ℚ), (0 : ℚ)), (4, 0), (0, 4)] 10 1 (by norm_num)).1 1,
   (containsPoint_rotation_and_outside_bbox
      [((0 : ℚ), (0 : ℚ)), (4, 0), (0, 4)] 10 1 (by norm_num)).2
     (Or.inr (Or.inl (by intro v hv; fin_cases hv <;> norm_num)))⟩

end Zones
